import Mathlib

/-!
Shallow embedding of the temp-mail Telegram bot (src/main.py): the
users_temp_emails table, the Mail.tm client functions, and the
command/callback handlers, together with theorems about the claims of the
specification.
-/

namespace TempMailBot

/-- MailboxRecord dictionary as produced by get_user_email and create_account
(src/main.py lines 74-78 and 167-171): keys address, id, token. -/
structure EmailData where
  address : String
  id : String
  token : String
deriving DecidableEq, Repr

/-- One row of the users_temp_emails table (create_table, src/main.py lines
39-51). chat_id is the PRIMARY KEY; created_at is diagnostics only and is not
modelled. -/
structure Row where
  chat_id : Int
  address : String
  account_id : String
  token : String
deriving DecidableEq, Repr

/-- State of the users_temp_emails table. -/
abbrev Table := List Row

/-- store_user_email (src/main.py lines 53-65): INSERT .. ON CONFLICT (chat_id)
DO UPDATE overwrites every provider-derived field of the row holding the key,
or appends a fresh row when no row holds it.  Under the PRIMARY KEY invariant
at most one row can match. -/
def store_user_email : Table → Int → EmailData → Table
  | [], cid, e => [⟨cid, e.address, e.id, e.token⟩]
  | r :: rs, cid, e =>
    if r.chat_id = cid then ⟨cid, e.address, e.id, e.token⟩ :: rs
    else r :: store_user_email rs cid e

/-- get_user_email (src/main.py lines 67-79): SELECT the row holding chat_id,
repackaged as the address/id/token dictionary. -/
def get_user_email (t : Table) (cid : Int) : Option EmailData :=
  (t.find? (fun r => r.chat_id == cid)).map (fun r => ⟨r.address, r.account_id, r.token⟩)

/-- delete_user_email_from_db (src/main.py lines 81-87): DELETE FROM
users_temp_emails WHERE chat_id matches. -/
def delete_user_email_from_db (t : Table) (cid : Int) : Table :=
  t.filter (fun r => !(r.chat_id == cid))

/-- Outcome of one HTTP request as seen through the requests library: a 2xx
response with its parsed JSON body, an HTTPError raised by raise_for_status
carrying the status code and response text, or a RequestException
(connection error, timeout, and friends) carrying a message. -/
inductive HttpResp (α : Type) where
  | ok (body : α)
  | httpError (status : Nat) (text : String)
  | transportError (msg : String)
deriving DecidableEq, Repr

/-- delete_account (src/main.py lines 213-227): DELETE /accounts/id.  A 2xx
response gives (True, None); an HTTPError with status 404 is reported as
success with a note; any other HTTPError and any RequestException are
reported as failure with an error description. -/
def delete_account : HttpResp Unit → Bool × Option String
  | .ok _ => (true, none)
  | .httpError status text =>
    if status = 404 then (true, some "Account already deleted on Mail.tm side.")
    else (false, some ("Failed to delete account from Mail.tm: " ++ toString status ++ " - " ++ text))
  | .transportError msg =>
    (false, some ("Failed to delete account due to connection issue: " ++ msg))

/-- One message summary of the Mail.tm messages listing, keeping the fields the
bot reads with dict.get (absent keys are none). -/
structure MsgSummary where
  id : Option String
  subject : Option String
  from_address : Option String
deriving DecidableEq, Repr

/-- get_messages (src/main.py lines 184-199): the parsed message list on
success; an HTTPError with status 404 (account purged by Mail.tm) yields the
empty list, as does every other HTTPError and every RequestException. -/
def get_messages : HttpResp (List MsgSummary) → List MsgSummary
  | .ok msgs => msgs
  | .httpError status _ => if status = 404 then [] else []
  | .transportError _ => []

/-- Body of a successful POST /accounts response, as read by create_account. -/
structure AccountBody where
  address : String
  id : String
deriving DecidableEq, Repr

/-- Body of a successful POST /token response, as read by create_account. -/
structure TokenBody where
  token : String
deriving DecidableEq, Repr

/-- One POST issued by create_account, with the payload fields it sends. -/
structure ApiCall where
  endpoint : String
  address : String
  password : String
deriving DecidableEq, Repr

/-- Environment of one create_account() call as the handlers invoke it (with
username=None and domain=None): the get_domains() result, the random username
derived from uuid4, and the responses to POST /accounts and POST /token. -/
structure CreateOracle where
  domains : List String
  username : String
  create_resp : HttpResp AccountBody
  token_resp : HttpResp TokenBody
deriving DecidableEq, Repr

/-- Error text of the HTTPError branch of create_account (src/main.py lines
172-176): status 422 gives the address-collision message, anything else the
generic API-error message. -/
def create_error_text (status : Nat) (text address : String) : String :=
  if status = 422 then
    "Could not create address " ++ address ++ ". It might already exist or the domain is invalid. Try generating a new one."
  else
    "Failed to create temporary email due to API error: " ++ toString status ++ " - " ++ text

/-- create_account (src/main.py lines 140-182) as called with no username and
no domain, paired with the trace of POSTs it issues: an empty get_domains()
result short-circuits with the domain-unavailable error and no HTTP call;
otherwise the address is formed from the first domain, the constant password
is sent to POST /accounts and then to POST /token, and both calls must succeed
for a record to be returned. -/
def create_account (o : CreateOracle) : (Option EmailData × Option String) × List ApiCall :=
  match o.domains with
  | [] =>
    ((none, some "Could not fetch available domains from Mail.tm. Please try again later."), [])
  | domain :: _ =>
    let address := o.username ++ "@" ++ domain
    let password := "temp_password"
    let call_create : ApiCall := ⟨"/accounts", address, password⟩
    match o.create_resp with
    | .ok account_data =>
      let call_token : ApiCall := ⟨"/token", account_data.address, password⟩
      match o.token_resp with
      | .ok token_data =>
        ((some ⟨account_data.address, account_data.id, token_data.token⟩, none),
          [call_create, call_token])
      | .httpError status text =>
        ((none, some (create_error_text status text address)), [call_create, call_token])
      | .transportError msg =>
        ((none, some ("Failed to create temporary email due to connection issue: " ++ msg)),
          [call_create, call_token])
    | .httpError status text =>
      ((none, some (create_error_text status text address)), [call_create])
    | .transportError msg =>
      ((none, some ("Failed to create temporary email due to connection issue: " ++ msg)),
        [call_create])

/-- Result rendered by the /generate handler. -/
inductive ProvisionResult where
  | conflict (existing : EmailData)
  | provisioned (rec : EmailData)
  | failed (err : Option String)
deriving DecidableEq, Repr

/-- generate_email handler (src/main.py lines 240-272): an existing record
leads to the confirmation prompt carrying the current record, with no API call
and no store write; otherwise create_account() runs and its record is stored
on success.  Returned alongside are the table after the call and the POSTs
issued. -/
def generate_email (t : Table) (cid : Int) (o : CreateOracle) :
    ProvisionResult × Table × List ApiCall :=
  match get_user_email t cid with
  | some current => (.conflict current, t, [])
  | none =>
    let r := create_account o
    match r.1.1 with
    | some account_info =>
      (.provisioned account_info, store_user_email t cid account_info, r.2)
    | none => (.failed r.1.2, t, r.2)

/-- Result rendered by the confirm_delete branch. -/
inductive DeleteOutcome where
  | noActive
  | deleted
  | failed (err : Option String)
deriving DecidableEq, Repr

/-- confirm_delete branch of handle_callback_query (src/main.py lines
345-359): the record is read; delete_account runs; only when it reports
success (the 404 case included) is the row removed from the database and
success reported, otherwise the failure is reported and the table is left
untouched. -/
def confirm_delete (t : Table) (cid : Int) (delete_resp : HttpResp Unit) :
    DeleteOutcome × Table :=
  match get_user_email t cid with
  | none => (.noActive, t)
  | some _current =>
    let r := delete_account delete_resp
    if r.1 then (.deleted, delete_user_email_from_db t cid)
    else (.failed r.2, t)

/-- Result rendered by the confirm_generate branch. -/
inductive GenOutcome where
  | provisioned (rec : EmailData)
  | failed (err : Option String)
deriving DecidableEq, Repr

/-- confirm_generate branch of handle_callback_query (src/main.py lines
364-386): when a record exists, delete_account is called with its result
discarded and the row is removed from the database unconditionally; then
create_account() runs, its record being stored on success and the identity
left without a row on failure. -/
def confirm_generate (t : Table) (cid : Int) (delete_resp : HttpResp Unit)
    (o : CreateOracle) : GenOutcome × Table :=
  let t1 := match get_user_email t cid with
    | some _current =>
      let _ := delete_account delete_resp
      delete_user_email_from_db t cid
    | none => t
  let r := create_account o
  match r.1.1 with
  | some account_info => (.provisioned account_info, store_user_email t1 cid account_info)
  | none => (.failed r.1.2, t1)

/-- Result rendered by the /inbox handler. -/
inductive InboxOutcome where
  | noActive
  | empty
  | unparsed
  | shown (messages : List MsgSummary)
deriving DecidableEq, Repr

/-- inbox handler (src/main.py lines 274-316): with no record, no-active; with
a record, get_messages runs; a nonempty result is filtered to the messages
with a truthy id (shown, or unparsed when none survive); an empty result
reports an empty inbox. -/
def inbox (t : Table) (cid : Int) (resp : HttpResp (List MsgSummary)) : InboxOutcome :=
  match get_user_email t cid with
  | none => .noActive
  | some _current =>
    let messages := get_messages resp
    if messages ≠ [] then
      let valid := messages.filter (fun m => !(m.id.getD "" == ""))
      if valid = [] then .unparsed else .shown valid
    else .empty

/-- Inline-button callback payload built by the inbox handler (src/main.py
line 304): the literal prefix view_msg_ followed by the message id, modelled
over characters. -/
def callback_data (msg_id : List Char) : List Char :=
  "view_msg_".toList ++ msg_id

/-- Python str.split with an explicit one-character separator: every
occurrence of the separator splits, empty chunks are kept, and the empty
input yields one empty chunk. -/
def pySplit (sep : Char) : List Char → List (List Char)
  | [] => [[]]
  | c :: cs =>
    let r := pySplit sep cs
    if c = sep then [] :: r
    else (c :: r.headD []) :: r.tail

/-- Decoding in handle_callback_query (src/main.py line 392): query.data is
split on the underscore and the component at index 2 is taken as the message
id. -/
def parse_msg_id (data : List Char) : List Char :=
  (pySplit '_' data).getD 2 []

/-- Interleaving state for two concurrent confirm_generate tasks on the same
chat id: the shared table, the list of account ids currently existing on the
provider, and each task's program counter and locally read record. -/
structure RState where
  table : Table
  provider : List String
  pc1 : Nat
  loc1 : Option EmailData
  pc2 : Nat
  loc2 : Option EmailData
deriving DecidableEq, Repr

/-- One await-separated step of a confirm_generate task (src/main.py lines
364-386) whose create_account succeeds with record new_rec: 0 reads the
record, 1 deletes the provider account when a record was read (skipping
straight to the create otherwise), 2 removes the row from the table, 3
creates the new provider account, 4 stores the new record; 5 is the terminal
counter. -/
def task_step (cid : Int) (new_rec : EmailData) (pc : Nat) (loc : Option EmailData)
    (t : Table) (prov : List String) : Nat × Option EmailData × Table × List String :=
  match pc with
  | 0 => (1, get_user_email t cid, t, prov)
  | 1 =>
    match loc with
    | some current => (2, loc, t, prov.erase current.id)
    | none => (3, loc, t, prov)
  | 2 => (3, loc, delete_user_email_from_db t cid, prov)
  | 3 => (4, loc, t, new_rec.id :: prov)
  | 4 => (5, loc, store_user_email t cid new_rec, prov)
  | _ => (pc, loc, t, prov)

/-- Scheduler step: true runs one step of task 1, false one step of task 2.
There is no lock in the source, so any interleaving is possible. -/
def sched_step (cid : Int) (r1 r2 : EmailData) (s : RState) (b : Bool) : RState :=
  if b then
    let r := task_step cid r1 s.pc1 s.loc1 s.table s.provider
    ⟨r.2.2.1, r.2.2.2, r.1, r.2.1, s.pc2, s.loc2⟩
  else
    let r := task_step cid r2 s.pc2 s.loc2 s.table s.provider
    ⟨r.2.2.1, r.2.2.2, s.pc1, s.loc1, r.1, r.2.1⟩

/-- Run a schedule of interleaved steps from a state. -/
def run_sched (cid : Int) (r1 r2 : EmailData) (sched : List Bool) (s : RState) : RState :=
  sched.foldl (sched_step cid r1 r2) s

/-- Initial state of the race: one existing record for the identity, its
account live on the provider, both tasks at their first step. -/
def init_state (cid : Int) (old : EmailData) : RState :=
  ⟨[⟨cid, old.address, old.id, old.token⟩], [old.id], 0, none, 0, none⟩

/-- No provider account is orphaned: every live provider account id is the one
referenced by the record the store holds for the identity. -/
def OrphanFree (cid : Int) (s : RState) : Prop :=
  ∀ a ∈ s.provider, Option.map (fun e => e.id) (get_user_email s.table cid) = some a

/-- PRIMARY KEY invariant of users_temp_emails: all rows carry distinct
chat_id keys. -/
def UniqueKeys (t : Table) : Prop :=
  t.Pairwise (fun a b => a.chat_id ≠ b.chat_id)

instance (cid : Int) (s : RState) : Decidable (OrphanFree cid s) :=
  inferInstanceAs (Decidable (∀ a ∈ s.provider,
    Option.map (fun e => e.id) (get_user_email s.table cid) = some a))

/-- Invariant of the two-task race once both tasks have finished: the store
holds one of the two tasks' new records in full. -/
def RaceInv (cid : Int) (r1 r2 : EmailData) (s : RState) : Prop :=
  s.pc1 = 5 → s.pc2 = 5 →
    (get_user_email s.table cid = some r1 ∨ get_user_email s.table cid = some r2)

/-- Record held by the identity before the examples below run. -/
def wOld : EmailData := ⟨"u@mail.tm", "acc0", "tok0"⟩

/-- A one-row table holding wOld for chat id 1. -/
def wTable : Table := [⟨1, "u@mail.tm", "acc0", "tok0"⟩]

/-- Record produced by a successful create_account in the examples below. -/
def wNew : EmailData := ⟨"fresh@mail.tm", "acc9", "tok9"⟩

/-- Environment in which create_account succeeds. -/
def wOracle : CreateOracle := ⟨["mail.tm"], "fresh", .ok ⟨"fresh@mail.tm", "acc9"⟩, .ok ⟨"tok9"⟩⟩

/-- Environment in which create_account fails at the POST /accounts call. -/
def wOracleFail : CreateOracle := ⟨["mail.tm"], "fresh", .httpError 500 "boom", .transportError "x"⟩

/-- Old record of the race example. -/
def cexOld : EmailData := ⟨"old@mail.tm", "oldacc", "oldtok"⟩

/-- New record of race task 1. -/
def cexR1 : EmailData := ⟨"a@mail.tm", "acc1", "tok1"⟩

/-- New record of race task 2. -/
def cexR2 : EmailData := ⟨"b@mail.tm", "acc2", "tok2"⟩

/-- Interleaving in which task 2 reads the old record, then task 1 runs to
completion, then task 2 runs to completion. -/
def cexSched : List Bool := [true, false, true, true, true, true, false, false, false, false]

/-- Looking up the key just written by the upsert yields exactly the full new
record, whatever the table held before. -/
theorem get_user_email_store (t : Table) (cid : Int) (e : EmailData) :
    get_user_email (store_user_email t cid e) cid = some ⟨e.address, e.id, e.token⟩ := by
  induction t with
  | nil => simp [store_user_email, get_user_email, List.find?]
  | cons r rs ih =>
    by_cases h : r.chat_id = cid
    · simp [store_user_email, h, get_user_email, List.find?]
    · simp only [store_user_email, if_neg h]
      simp only [get_user_email, List.find?] at ih ⊢
      have hb : (r.chat_id == cid) = false := by simpa using h
      rw [hb]
      exact ih

/-- A deleted key is absent. -/
theorem get_user_email_delete (t : Table) (cid : Int) :
    get_user_email (delete_user_email_from_db t cid) cid = none := by
  simp only [get_user_email, delete_user_email_from_db, Option.map_eq_none']
  rw [List.find?_eq_none]
  intro x hx
  have := (List.mem_filter.mp hx).2
  simpa using this

/-- A row of the upserted table either carries the upserted key or was already
present. -/
theorem mem_store_key (t : Table) (cid : Int) (e : EmailData) :
    ∀ x ∈ store_user_email t cid e, x.chat_id = cid ∨ x ∈ t := by
  induction t with
  | nil => intro x hx; simp [store_user_email] at hx; subst hx; left; rfl
  | cons r rs ih =>
    intro x hx
    by_cases h : r.chat_id = cid
    · simp only [store_user_email, if_pos h, List.mem_cons] at hx
      rcases hx with hx | hx
      · subst hx; left; rfl
      · right; exact List.mem_cons_of_mem _ hx
    · simp only [store_user_email, if_neg h, List.mem_cons] at hx
      rcases hx with hx | hx
      · right; subst hx; exact List.mem_cons_self _ _
      · rcases ih x hx with h1 | h1
        · left; exact h1
        · right; exact List.mem_cons_of_mem _ h1

/-- The upsert preserves key uniqueness. -/
theorem uniqueKeys_store (t : Table) (cid : Int) (e : EmailData)
    (h : UniqueKeys t) : UniqueKeys (store_user_email t cid e) := by
  induction t with
  | nil => simp [store_user_email, UniqueKeys]
  | cons r rs ih =>
    rcases List.pairwise_cons.mp h with ⟨hr, hrs⟩
    by_cases hc : r.chat_id = cid
    · simp only [store_user_email, if_pos hc]
      refine List.pairwise_cons.mpr ⟨?_, hrs⟩
      intro b hb
      have := hr b hb
      simpa [hc] using this
    · simp only [store_user_email, if_neg hc]
      refine List.pairwise_cons.mpr ⟨?_, ih hrs⟩
      intro b hb
      rcases mem_store_key rs cid e b hb with h1 | h1
      · rw [h1]; exact hc
      · exact hr b h1

/-- The keyed delete preserves key uniqueness. -/
theorem uniqueKeys_delete (t : Table) (cid : Int)
    (h : UniqueKeys t) : UniqueKeys (delete_user_email_from_db t cid) :=
  List.Pairwise.sublist (List.filter_sublist t) h

/-- Under key uniqueness at most one row holds any given key. -/
theorem filter_key_len (t : Table) (cid : Int) (h : UniqueKeys t) :
    (t.filter (fun r => r.chat_id == cid)).length ≤ 1 := by
  induction t with
  | nil => simp
  | cons r rs ih =>
    rcases List.pairwise_cons.mp h with ⟨hr, hrs⟩
    by_cases hc : r.chat_id = cid
    · have hnil : rs.filter (fun r => r.chat_id == cid) = [] := by
        rw [List.filter_eq_nil_iff]
        intro b hb
        have := hr b hb
        simp [hc] at this ⊢
        intro hb2
        exact this (hb2.symm)
      simp [List.filter, hc, hnil]
    · have hb : (r.chat_id == cid) = false := by simpa using hc
      simp only [List.filter, hb]
      exact ih hrs

/-- pySplit always yields at least one chunk, as Python str.split does. -/
theorem pySplit_ne_nil (sep : Char) (l : List Char) : pySplit sep l ≠ [] := by
  cases l with
  | nil => simp [pySplit]
  | cons c cs =>
    by_cases h : c = sep <;> simp [pySplit, h]

/-- Splitting a separator-free chunk followed by a separator peels the chunk
off the front of the split. -/
theorem pySplit_append_nosep (a rest : List Char) (ha : '_' ∉ a) :
    pySplit '_' (a ++ '_' :: rest) = a :: pySplit '_' rest := by
  induction a with
  | nil => simp [pySplit]
  | cons c cs ih =>
    have hc : ¬ c = '_' := fun hh => ha (by rw [hh]; exact List.mem_cons_self _ _)
    have ha' : '_' ∉ cs := fun hm => ha (List.mem_cons_of_mem _ hm)
    simp [pySplit, hc, ih ha']

/-- The first chunk of a split is the run of characters before the first
separator. -/
theorem pySplit_headD (sep : Char) (l : List Char) :
    (pySplit sep l).headD [] = l.takeWhile (fun c => !(c == sep)) := by
  induction l with
  | nil => simp [pySplit]
  | cons c cs ih =>
    by_cases h : c = sep
    · simp [pySplit, h, List.takeWhile_cons]
    · simp only [pySplit, if_neg h, List.takeWhile_cons,
        show (!(c == sep)) = true by simpa using h, if_true]
      rw [← ih]
      simp [List.headD_eq_head?]

/-- Decoding the callback payload of a message id yields exactly the part of
the id before its first underscore. -/
theorem parse_callback (msg_id : List Char) :
    parse_msg_id (callback_data msg_id) = msg_id.takeWhile (fun c => !(c == '_')) := by
  have h1 : callback_data msg_id =
      "view".toList ++ '_' :: ("msg".toList ++ '_' :: msg_id) := rfl
  rw [parse_msg_id, h1,
    pySplit_append_nosep _ _ (by decide),
    pySplit_append_nosep _ _ (by decide)]
  rcases hP : pySplit '_' msg_id with _ | ⟨q, qs⟩
  · exact absurd hP (pySplit_ne_nil _ _)
  · have := pySplit_headD '_' msg_id
    rw [hP] at this
    simpa using this

/-- takeWhile keeps a list free of the stopping character whole. -/
theorem takeWhile_all_eq (l : List Char) (h : '_' ∉ l) :
    l.takeWhile (fun c => !(c == '_')) = l := by
  induction l with
  | nil => rfl
  | cons c cs ih =>
    have hc : ¬ c = '_' := fun hh => h (by rw [hh]; exact List.mem_cons_self _ _)
    have h' : '_' ∉ cs := fun hm => h (List.mem_cons_of_mem _ hm)
    simp [List.takeWhile_cons, hc, ih h']

/-- takeWhile strictly truncates a list containing the stopping character. -/
theorem takeWhile_ne_of_mem (l : List Char) (h : '_' ∈ l) :
    l.takeWhile (fun c => !(c == '_')) ≠ l := by
  induction l with
  | nil => simp at h
  | cons c cs ih =>
    by_cases hc : c = '_'
    · subst hc
      simp [List.takeWhile_cons]
    · have h' : '_' ∈ cs := by
        rcases List.mem_cons.mp h with h1 | h1
        · exact absurd h1.symm hc
        · exact h1
      simp only [List.takeWhile_cons, show (!(c == '_')) = true by simpa using hc, if_true,
        ne_eq, List.cons.injEq, true_and]
      exact ih h'

/-- One scheduler step preserves the race invariant: entering the terminal
counter happens only through the store write of the stepping task. -/
theorem sched_step_inv (cid : Int) (r1 r2 : EmailData) (s : RState) (b : Bool)
    (h : RaceInv cid r1 r2 s) : RaceInv cid r1 r2 (sched_step cid r1 r2 s b) := by
  obtain ⟨tab, prov, pc1, l1, pc2, l2⟩ := s
  cases b
  · rcases pc2 with _ | _ | _ | _ | _ | n
    · intro h1 h2; simp [sched_step, task_step] at h2
    · rcases l2 with _ | current <;>
        (intro h1 h2; simp [sched_step, task_step] at h2)
    · intro h1 h2; simp [sched_step, task_step] at h2
    · intro h1 h2; simp [sched_step, task_step] at h2
    · intro h1 h2
      simp only [sched_step, task_step, if_neg (Bool.false_ne_true)]
      right
      have := get_user_email_store tab cid r2
      simpa using this
    · intro h1 h2
      simp only [sched_step, task_step] at h1 h2 ⊢
      exact h (by simpa using h1) (by simpa using h2)
  · rcases pc1 with _ | _ | _ | _ | _ | n
    · intro h1 h2; simp [sched_step, task_step] at h1
    · rcases l1 with _ | current <;>
        (intro h1 h2; simp [sched_step, task_step] at h1)
    · intro h1 h2; simp [sched_step, task_step] at h1
    · intro h1 h2; simp [sched_step, task_step] at h1
    · intro h1 h2
      simp only [sched_step, task_step, if_pos rfl]
      left
      have := get_user_email_store tab cid r1
      simpa using this
    · intro h1 h2
      simp only [sched_step, task_step] at h1 h2 ⊢
      exact h (by simpa using h1) (by simpa using h2)

/-- Any schedule preserves the race invariant. -/
theorem run_sched_inv (cid : Int) (r1 r2 : EmailData) (sched : List Bool) :
    ∀ s : RState, RaceInv cid r1 r2 s → RaceInv cid r1 r2 (run_sched cid r1 r2 sched s) := by
  induction sched with
  | nil => intro s h; simpa [run_sched] using h
  | cons b bs ih =>
    intro s h
    have h1 := sched_step_inv cid r1 r2 s b h
    have := ih (sched_step cid r1 r2 s b) h1
    simpa [run_sched] using this

/-- C1: in the confirm_generate flow, an identity with an existing record has
its row removed from the store whatever the provider delete response was (the
response is discarded); when create_account succeeds the new record is
upserted and Provisioned is returned, and when it fails the flow returns
Failed with the identity holding no row, the old record never being
restored. -/
theorem c1_replace_always_clears_then_upserts (t : Table) (cid : Int)
    (dresp : HttpResp Unit) (o : CreateOracle) (old : EmailData)
    (h : get_user_email t cid = some old) :
    (∀ rec, (create_account o).1.1 = some rec →
      confirm_generate t cid dresp o =
        (.provisioned rec, store_user_email (delete_user_email_from_db t cid) cid rec) ∧
      get_user_email (confirm_generate t cid dresp o).2 cid = some rec) ∧
    ((create_account o).1.1 = none →
      confirm_generate t cid dresp o =
        (.failed (create_account o).1.2, delete_user_email_from_db t cid) ∧
      get_user_email (confirm_generate t cid dresp o).2 cid = none) := by
  constructor
  · intro rec hc
    have h1 : confirm_generate t cid dresp o =
        (.provisioned rec, store_user_email (delete_user_email_from_db t cid) cid rec) := by
      simp [confirm_generate, h, hc]
    refine ⟨h1, ?_⟩
    rw [h1]
    simpa using get_user_email_store (delete_user_email_from_db t cid) cid rec
  · intro hc
    have h1 : confirm_generate t cid dresp o =
        (.failed (create_account o).1.2, delete_user_email_from_db t cid) := by
      simp [confirm_generate, h, hc]
    refine ⟨h1, ?_⟩
    rw [h1]
    exact get_user_email_delete t cid

/-- C1 witness: a concrete replace whose provider delete fails with a 500 and
whose create succeeds still clears the old row and stores the new record. -/
theorem c1_replace_always_clears_then_upserts_witness :
    confirm_generate wTable 1 (.httpError 500 "err") wOracle =
      (.provisioned wNew, store_user_email (delete_user_email_from_db wTable 1) 1 wNew) ∧
    get_user_email (confirm_generate wTable 1 (.httpError 500 "err") wOracle).2 1 = some wNew :=
  (c1_replace_always_clears_then_upserts wTable 1 (.httpError 500 "err") wOracle wOld
    (by decide)).1 wNew (by decide)

/-- C2: in the confirm_delete flow, for an identity with an existing record a
provider delete reported as failure leaves the table untouched and returns
Failed, while a provider delete reported as success (the 404 case included)
removes the row and returns Deleted. -/
theorem c2_delete_mirrors_provider_outcome (t : Table) (cid : Int)
    (resp : HttpResp Unit) (info : EmailData)
    (h : get_user_email t cid = some info) :
    ((delete_account resp).1 = false →
      confirm_delete t cid resp = (.failed (delete_account resp).2, t)) ∧
    ((delete_account resp).1 = true →
      confirm_delete t cid resp = (.deleted, delete_user_email_from_db t cid) ∧
      get_user_email (confirm_delete t cid resp).2 cid = none) := by
  constructor
  · intro hf
    simp [confirm_delete, h, hf]
  · intro hs
    have h1 : confirm_delete t cid resp = (.deleted, delete_user_email_from_db t cid) := by
      simp [confirm_delete, h, hs]
    refine ⟨h1, ?_⟩
    rw [h1]
    exact get_user_email_delete t cid

/-- C2 witness: a concrete transport failure leaves the row in place, a
concrete 2xx delete removes it. -/
theorem c2_delete_mirrors_provider_outcome_witness :
    confirm_delete wTable 1 (.transportError "down") =
      (.failed (delete_account (.transportError "down")).2, wTable) ∧
    confirm_delete wTable 1 (.ok ()) = (.deleted, delete_user_email_from_db wTable 1) :=
  ⟨(c2_delete_mirrors_provider_outcome wTable 1 (.transportError "down") wOld
      (by decide)).1 (by decide),
    ((c2_delete_mirrors_provider_outcome wTable 1 (.ok ()) wOld
      (by decide)).2 (by decide)).1⟩

/-- C3: the /generate handler returns a conflict carrying the existing record,
issues no POST and leaves the table unchanged whenever a record exists; hence
a second provision right after a successful one returns that conflict and
does not alter the store. -/
theorem c3_provision_never_overwrites (t : Table) (cid : Int) (o o2 : CreateOracle) :
    (∀ info, get_user_email t cid = some info →
      generate_email t cid o = (.conflict info, t, [])) ∧
    (∀ rec, (generate_email t cid o).1 = .provisioned rec →
      generate_email (generate_email t cid o).2.1 cid o2 =
        (.conflict rec, (generate_email t cid o).2.1, [])) := by
  constructor
  · intro info h
    simp [generate_email, h]
  · intro rec h
    rcases hget : get_user_email t cid with _ | cur
    · rcases hc : (create_account o).1.1 with _ | acc
      · simp [generate_email, hget, hc] at h
      · have hrec : acc = rec := by
          simp [generate_email, hget, hc] at h
          exact h
        subst hrec
        have h2 : (generate_email t cid o).2.1 = store_user_email t cid acc := by
          simp [generate_email, hget, hc]
        rw [h2]
        have h3 : get_user_email (store_user_email t cid acc) cid = some acc := by
          simpa using get_user_email_store t cid acc
        simp [generate_email, h3]
    · simp [generate_email, hget] at h

/-- C3 witness: a table already holding a record yields the conflict with no
call and no write, and a provision on the empty table followed by a second
provision yields the conflict carrying the record just stored. -/
theorem c3_provision_never_overwrites_witness :
    generate_email wTable 1 wOracle = (.conflict wOld, wTable, []) ∧
    generate_email (generate_email [] 1 wOracle).2.1 1 wOracleFail =
      (.conflict wNew, (generate_email [] 1 wOracle).2.1, []) :=
  ⟨(c3_provision_never_overwrites wTable 1 wOracle wOracle).1 wOld (by decide),
    (c3_provision_never_overwrites ([] : Table) 1 wOracle wOracleFail).2 wNew (by decide)⟩

/-- C4 counterexample: the source has no per-identity lock, so the claim that
two simultaneous confirm_generate flows for the same identity serialize and
never leave an orphaned unreferenced provider account is false: under the
interleaving in which task 2 reads the old record before task 1 writes, both
tasks complete yet the provider account created by task 1 is live and
referenced by nothing. -/
theorem c4_serialization_counterexample :
    (run_sched 1 cexR1 cexR2 cexSched (init_state 1 cexOld)).pc1 = 5 ∧
    (run_sched 1 cexR1 cexR2 cexSched (init_state 1 cexOld)).pc2 = 5 ∧
    ¬ OrphanFree 1 (run_sched 1 cexR1 cexR2 cexSched (init_state 1 cexOld)) := by
  decide

/-- C4 (amended): operations on the same identity are not mutually excluded
(there is no lock), and an interleaving of two confirm_generate flows can
orphan a provider account; but because every store write is an atomic
full-record upsert, any completed interleaving of the two flows leaves the
store holding exactly one of the two flows' new records, never a hybrid. -/
theorem c4_store_never_hybrid (cid : Int) (old r1 r2 : EmailData) (sched : List Bool)
    (h1 : (run_sched cid r1 r2 sched (init_state cid old)).pc1 = 5)
    (h2 : (run_sched cid r1 r2 sched (init_state cid old)).pc2 = 5) :
    get_user_email (run_sched cid r1 r2 sched (init_state cid old)).table cid = some r1 ∨
    get_user_email (run_sched cid r1 r2 sched (init_state cid old)).table cid = some r2 :=
  run_sched_inv cid r1 r2 sched (init_state cid old)
    (fun hp1 _ => absurd hp1 (by simp [init_state])) h1 h2

/-- C4 witness: the racy interleaving of the counterexample still leaves the
store holding one of the two new records in full. -/
theorem c4_store_never_hybrid_witness :
    get_user_email (run_sched 1 cexR1 cexR2 cexSched (init_state 1 cexOld)).table 1 =
      some cexR1 ∨
    get_user_email (run_sched 1 cexR1 cexR2 cexSched (init_state 1 cexOld)).table 1 =
      some cexR2 :=
  c4_store_never_hybrid 1 cexOld cexR1 cexR2 cexSched (by decide) (by decide)

/-- C5: the store is a map keyed uniquely on the chat id: under the PRIMARY
KEY invariant at most one row holds any identity, the invariant is preserved
by the upsert, the keyed delete, and each of the provision, delete and
replace flows, and every write is a full-record upsert by that key. -/
theorem c5_primary_key_unique (t : Table) (cid : Int) (e : EmailData)
    (o : CreateOracle) (dresp : HttpResp Unit) (h : UniqueKeys t) :
    (t.filter (fun r => r.chat_id == cid)).length ≤ 1 ∧
    UniqueKeys (store_user_email t cid e) ∧
    UniqueKeys (delete_user_email_from_db t cid) ∧
    get_user_email (store_user_email t cid e) cid = some ⟨e.address, e.id, e.token⟩ ∧
    UniqueKeys (generate_email t cid o).2.1 ∧
    UniqueKeys (confirm_delete t cid dresp).2 ∧
    UniqueKeys (confirm_generate t cid dresp o).2 := by
  refine ⟨filter_key_len t cid h, uniqueKeys_store t cid e h, uniqueKeys_delete t cid h,
    get_user_email_store t cid e, ?_, ?_, ?_⟩
  · rcases hget : get_user_email t cid with _ | cur
    · rcases hc : (create_account o).1.1 with _ | acc
      · simpa [generate_email, hget, hc] using h
      · simpa [generate_email, hget, hc] using uniqueKeys_store t cid acc h
    · simpa [generate_email, hget] using h
  · rcases hget : get_user_email t cid with _ | cur
    · simpa [confirm_delete, hget] using h
    · by_cases hd : (delete_account dresp).1
      · simpa [confirm_delete, hget, hd] using uniqueKeys_delete t cid h
      · simpa [confirm_delete, hget, hd] using h
  · rcases hget : get_user_email t cid with _ | cur
    · rcases hc : (create_account o).1.1 with _ | acc
      · simpa [confirm_generate, hget, hc] using h
      · simpa [confirm_generate, hget, hc] using uniqueKeys_store t cid acc h
    · rcases hc : (create_account o).1.1 with _ | acc
      · simpa [confirm_generate, hget, hc] using uniqueKeys_delete t cid h
      · simpa [confirm_generate, hget, hc] using
          uniqueKeys_store (delete_user_email_from_db t cid) cid acc (uniqueKeys_delete t cid h)

/-- C5 witness: the invariant statement evaluated on a concrete one-row
table, a fresh record and concrete provider responses. -/
theorem c5_primary_key_unique_witness :
    (wTable.filter (fun r => r.chat_id == 1)).length ≤ 1 ∧
    UniqueKeys (store_user_email wTable 1 wNew) ∧
    UniqueKeys (delete_user_email_from_db wTable 1) ∧
    get_user_email (store_user_email wTable 1 wNew) 1 =
      some ⟨wNew.address, wNew.id, wNew.token⟩ ∧
    UniqueKeys (generate_email wTable 1 wOracle).2.1 ∧
    UniqueKeys (confirm_delete wTable 1 (.ok ())).2 ∧
    UniqueKeys (confirm_generate wTable 1 (.ok ()) wOracle).2 :=
  c5_primary_key_unique wTable 1 wNew wOracle (.ok ())
    (by simp [wTable, UniqueKeys])

/-- C6: delete_account reports a 404 as success, reports every other HTTP
error and every transport error as failure together with an error
description, and a 2xx as plain success; being a total function of the
response it never raises. -/
theorem c6_delete_account_contract (status : Nat) (text msg : String) :
    delete_account (.httpError 404 text) =
      (true, some "Account already deleted on Mail.tm side.") ∧
    (status ≠ 404 →
      (delete_account (.httpError status text)).1 = false ∧
      ((delete_account (.httpError status text)).2).isSome = true) ∧
    (delete_account (.transportError msg)).1 = false ∧
    ((delete_account (.transportError msg)).2).isSome = true ∧
    delete_account (.ok ()) = (true, none) := by
  refine ⟨by simp [delete_account], fun hne => ?_, by simp [delete_account],
    by simp [delete_account], rfl⟩
  simp [delete_account, hne]

/-- C6 witness: a concrete 500 is reported as failure with a description. -/
theorem c6_delete_account_contract_witness :
    (delete_account (.httpError 500 "oops")).1 = false ∧
    ((delete_account (.httpError 500 "oops")).2).isSome = true :=
  (c6_delete_account_contract 500 "oops" "x").2.1 (by decide)

/-- C7: get_messages returns the empty list on a 404 (account purged on the
provider side), on any other HTTP error and on any transport error, so the
inbox handler of an identity holding a record reports an empty inbox rather
than an error. -/
theorem c7_messages_empty_on_error (status : Nat) (text msg : String)
    (t : Table) (cid : Int) (info : EmailData) :
    get_messages (.httpError status text) = [] ∧
    get_messages (.transportError msg) = [] ∧
    (get_user_email t cid = some info →
      inbox t cid (.httpError status text) = .empty ∧
      inbox t cid (.transportError msg) = .empty) := by
  refine ⟨by simp [get_messages], rfl, fun h => ⟨?_, ?_⟩⟩
  · simp [inbox, h, get_messages]
  · simp [inbox, h, get_messages]

/-- C7 witness: a concrete 404 and a concrete transport error both yield the
empty-inbox report on a table holding a record. -/
theorem c7_messages_empty_on_error_witness :
    inbox wTable 1 (.httpError 404 "gone") = .empty ∧
    inbox wTable 1 (.transportError "down") = .empty :=
  (c7_messages_empty_on_error 404 "gone" "down" wTable 1 wOld).2.2 (by decide)

/-- C8: with no domains available create_account returns the
domain-unavailable error without issuing any POST, and otherwise the first of
the returned domains forms the address sent to POST /accounts. -/
theorem c8_domain_unavailable_short_circuit (o : CreateOracle) :
    (o.domains = [] →
      create_account o =
        ((none, some "Could not fetch available domains from Mail.tm. Please try again later."),
          [])) ∧
    (∀ d rest, o.domains = d :: rest →
      ((create_account o).2.head?).map (fun c => (c.endpoint, c.address)) =
        some ("/accounts", o.username ++ "@" ++ d)) := by
  constructor
  · intro h
    simp [create_account, h]
  · intro d rest h
    rcases hc : o.create_resp with body | ⟨st, tx⟩ | m <;>
      rcases ht : o.token_resp with tb | ⟨st2, tx2⟩ | m2 <;>
        simp [create_account, h, hc, ht]

/-- C8 witness: an empty domain listing short-circuits; with a domain
available the first POST goes to /accounts with the formed address. -/
theorem c8_domain_unavailable_short_circuit_witness :
    create_account ⟨[], "u", .ok ⟨"a", "b"⟩, .ok ⟨"t"⟩⟩ =
      ((none, some "Could not fetch available domains from Mail.tm. Please try again later."),
        []) ∧
    ((create_account wOracle).2.head?).map (fun c => (c.endpoint, c.address)) =
      some ("/accounts", "fresh" ++ "@" ++ "mail.tm") :=
  ⟨(c8_domain_unavailable_short_circuit ⟨[], "u", .ok ⟨"a", "b"⟩, .ok ⟨"t"⟩⟩).1 rfl,
    (c8_domain_unavailable_short_circuit wOracle).2 "mail.tm" [] (by decide)⟩

/-- C9: every POST issued by create_account carries the constant password
string, so the bearer token is always issued against this constant
credential. -/
theorem c9_constant_password (o : CreateOracle) :
    ∀ c ∈ (create_account o).2, c.password = "temp_password" := by
  intro c hc
  rcases hd : o.domains with _ | ⟨d, rest⟩
  · simp [create_account, hd] at hc
  · rcases hcr : o.create_resp with body | ⟨st, tx⟩ | m
    · rcases ht : o.token_resp with tb | ⟨st2, tx2⟩ | m2 <;>
        (simp [create_account, hd, hcr, ht] at hc; rcases hc with rfl | rfl <;> rfl)
    · simp [create_account, hd, hcr] at hc
      subst hc
      rfl
    · simp [create_account, hd, hcr] at hc
      subst hc
      rfl

/-- C9 witness: the concrete /accounts POST of a successful creation is in
the trace and carries the constant password. -/
theorem c9_constant_password_witness :
    (⟨"/accounts", "fresh@mail.tm", "temp_password"⟩ : ApiCall) ∈ (create_account wOracle).2 ∧
    (⟨"/accounts", "fresh@mail.tm", "temp_password"⟩ : ApiCall).password = "temp_password" :=
  ⟨by decide,
    c9_constant_password wOracle ⟨"/accounts", "fresh@mail.tm", "temp_password"⟩ (by decide)⟩

/-- C10: a message id is embedded as the view_msg_ prefix plus the id and
decoded by splitting on the underscore and taking the component at index 2;
an id without an underscore round-trips exactly, while an id containing an
underscore decodes to a strict prefix of itself, so the wrong id is used. -/
theorem c10_callback_roundtrip (msg_id : List Char) :
    ('_' ∉ msg_id → parse_msg_id (callback_data msg_id) = msg_id) ∧
    ('_' ∈ msg_id →
      parse_msg_id (callback_data msg_id) <+: msg_id ∧
      parse_msg_id (callback_data msg_id) ≠ msg_id) := by
  constructor
  · intro h
    rw [parse_callback]
    exact takeWhile_all_eq msg_id h
  · intro h
    rw [parse_callback]
    exact ⟨⟨msg_id.dropWhile (fun c => !(c == '_')), List.takeWhile_append_dropWhile _ _⟩,
      takeWhile_ne_of_mem msg_id h⟩

/-- C10 witness: the id abc round-trips; the id ab_cd decodes to a strict
prefix of itself. -/
theorem c10_callback_roundtrip_witness :
    parse_msg_id (callback_data "abc".toList) = "abc".toList ∧
    (parse_msg_id (callback_data "ab_cd".toList) <+: "ab_cd".toList ∧
      parse_msg_id (callback_data "ab_cd".toList) ≠ "ab_cd".toList) :=
  ⟨(c10_callback_roundtrip "abc".toList).1 (by decide),
    (c10_callback_roundtrip "ab_cd".toList).2 (by decide)⟩

end TempMailBot
